import Mathlib

/-!
Event generator triggered ADC conversion (T2G example, `main.c`).

Shallow embedding of `main.c`: the two shared variables `adc_done_flag`
(`volatile uint8_t`) and `adc_result` (`uint16_t`), the two interrupt handlers
`evtgen_isr` and `adc_int_handler`, the start-up sequence of `main` and one
iteration of its polling loop.

Calls into the vendor peripheral driver library (PDL), the board support
package and the C library are external to `main.c`.  Every such call is
recorded, in program order, in the `trace` of the `World`; the value a call
returns is an input of the embedded function.  Accesses to the two shared
variables and `printf` calls are recorded in the same trace.
-/

namespace EvtgenAdc

/-! ## Constants that come from headers and generated configuration -/

/-- Values that `main.c` takes from the PDL headers and from the generated
board configuration (`cy_pdl.h`, `cybsp.h`), none of which is part of
`main.c`.  The two SAR2 masks are single-bit masks; only the bit position is
kept. -/
structure Pdl where
  /-- Value of `CY_RSLT_SUCCESS`. -/
  CY_RSLT_SUCCESS : Nat
  /-- Bit position of the mask `CY_SAR2_INT_GRP_DONE`. -/
  grpDoneBit : Nat
  /-- Bit position of the mask `CY_SAR2_STATUS_VALID`. -/
  statusValidBit : Nat
  /-- Value of the enumerator `CY_EVTGEN_RATIO_CONTROL_HW`. -/
  CY_EVTGEN_RATIO_CONTROL_HW : Nat
  /-- Value of the enumerator `CY_EVTGEN_COUNTER_STATUS_VALID`. -/
  CY_EVTGEN_COUNTER_STATUS_VALID : Nat
  /-- Whether the preprocessor symbol `CY_IP_M7CPUSS` is defined. -/
  CY_IP_M7CPUSS : Bool
  /-- Field `EVTGEN_config.ratioControlMode` of the generated configuration. -/
  ratioControlMode : Nat
  /-- Field `EVTGEN_comp0_config.valueActiveComparator`. -/
  comp0_valueActiveComparator : Nat
  /-- Field `EVTGEN_comp12_config.valueActiveComparator`. -/
  comp12_valueActiveComparator : Nat
  deriving DecidableEq

/-- The mask `CY_SAR2_INT_GRP_DONE`. -/
def Pdl.CY_SAR2_INT_GRP_DONE (cfg : Pdl) : Nat := 2 ^ cfg.grpDoneBit

/-- The mask `CY_SAR2_STATUS_VALID`. -/
def Pdl.CY_SAR2_STATUS_VALID (cfg : Pdl) : Nat := 2 ^ cfg.statusValidBit

/-- Macro `ADC_LOGICAL_CHANNEL`, defined as `(0u)`. -/
def ADC_LOGICAL_CHANNEL : Nat := 0

/-- Macro `ADC_INTR_PRIORITY`, defined as `(7u)`. -/
def ADC_INTR_PRIORITY : Nat := 7

/-- Macro `EVTGEN_INTR_PRIORITY`, defined as `(7u)`. -/
def EVTGEN_INTR_PRIORITY : Nat := 7

/-- Macro `EVTGEN_COMP_STRUCT_NUM`: `12u` when `CY_IP_M7CPUSS` is defined, `0u`
otherwise. -/
def EVTGEN_COMP_STRUCT_NUM (cfg : Pdl) : Nat :=
  if cfg.CY_IP_M7CPUSS then 12 else 0

/-- Field `valueActiveComparator` of `EVTGEN_COMP_CONFIG`: the macro `EVTGEN_COMP_CONFIG`
is `EVTGEN_comp12_config` when `CY_IP_M7CPUSS` is defined and
`EVTGEN_comp0_config` otherwise. -/
def EVTGEN_COMP_CONFIG_valueActiveComparator (cfg : Pdl) : Nat :=
  if cfg.CY_IP_M7CPUSS then cfg.comp12_valueActiveComparator
  else cfg.comp0_valueActiveComparator

/-! ## Observable actions -/

/-- The two NVIC multiplexed interrupt lines used by `main.c`. -/
inductive Irq where
  /-- Line `ADC_IRQ_NUM`, that is `NvicMux2_IRQn`. -/
  | ADC_IRQ_NUM
  /-- Line `EVTGEN_IRQ_NUM`, that is `NvicMux3_IRQn`. -/
  | EVTGEN_IRQ_NUM
  deriving DecidableEq

/-- The two interrupt handlers defined in `main.c`. -/
inductive Handler where
  | evtgen_isr
  | adc_int_handler
  deriving DecidableEq

/-- A call that leaves `main.c`, with the arguments that `main.c` fixes. -/
inductive DriverCall where
  | cybsp_init
  | enable_irq
  | cy_retarget_io_init
  | Cy_SAR2_Init
  | Cy_SAR2_Channel_SetInterruptMask (channel mask : Nat)
  | Cy_SysInt_Init (irq : Irq) (priority : Nat) (handler : Handler)
  | NVIC_ClearPendingIRQ (irq : Irq)
  | NVIC_EnableIRQ (irq : Irq)
  | Cy_EvtGen_ClearInterrupt (mask : Nat)
  | Cy_EvtGen_Init
  | Cy_EvtGen_Enable
  | Cy_SysLib_DelayUs (us : Nat)
  | Cy_EvtGen_GetRatioStatus
  | Cy_EvtGen_GetCounterStatus
  | Cy_EvtGen_InitStruct (structNum : Nat)
  | CY_ASSERT (cond : Nat)
  | Cy_EvtGen_GetStructInterrupt (structNum : Nat)
  | Cy_EvtGen_ClearStructInterrupt (structNum : Nat)
  | Cy_EvtGen_UpdateActiveCompValue (structNum value : Nat)
  | Cy_SAR2_Channel_GetInterruptStatusMasked (channel : Nat)
  | Cy_SAR2_Channel_GetResult (channel : Nat)
  | Cy_SAR2_Channel_ClearInterrupt (channel mask : Nat)
  deriving DecidableEq

/-- One observable action of the program. -/
inductive Op where
  /-- A call that leaves `main.c`. -/
  | call (c : DriverCall)
  /-- A read of `adc_done_flag`. -/
  | read_adc_done_flag
  /-- A write of `adc_done_flag`. -/
  | write_adc_done_flag (v : Fin 256)
  /-- A read of `adc_result`. -/
  | read_adc_result
  /-- A write of `adc_result`. -/
  | write_adc_result (v : Fin 65536)
  /-- A call of `printf` with its format string and its integer arguments. -/
  | printf (fmt : String) (args : List Int)
  deriving DecidableEq

/-- Whether an action is a write to one of the two shared variables. -/
def Op.isSharedWrite : Op → Bool
  | .write_adc_done_flag _ => true
  | .write_adc_result _ => true
  | _ => false

/-! ## Program state -/

/-- The two global variables of `main.c` and the actions performed so far. -/
structure World where
  /-- Variable `volatile uint8_t adc_done_flag`. -/
  adc_done_flag : Fin 256
  /-- Variable `uint16_t adc_result`. -/
  adc_result : Fin 65536
  /-- Actions performed so far, oldest first. -/
  trace : List Op
  deriving DecidableEq

/-- State at program start: `adc_done_flag = 0`, `adc_result` zero-initialised
(static storage), nothing done yet. -/
def World.initial : World := ⟨0, 0, []⟩

/-- Record an action. -/
def World.emit (w : World) (o : Op) : World :=
  { w with trace := w.trace ++ [o] }

/-- Record a call that leaves `main.c`. -/
def World.call (w : World) (c : DriverCall) : World := w.emit (.call c)

/-- Read `adc_done_flag`. -/
def World.get_adc_done_flag (w : World) : Fin 256 × World :=
  (w.adc_done_flag, w.emit .read_adc_done_flag)

/-- Assign `adc_done_flag`. -/
def World.set_adc_done_flag (w : World) (v : Fin 256) : World :=
  { w with adc_done_flag := v, trace := w.trace ++ [.write_adc_done_flag v] }

/-- Read `adc_result`. -/
def World.get_adc_result (w : World) : Fin 65536 × World :=
  (w.adc_result, w.emit .read_adc_result)

/-- Assign `adc_result`. -/
def World.set_adc_result (w : World) (v : Fin 65536) : World :=
  { w with adc_result := v, trace := w.trace ++ [.write_adc_result v] }

/-- Conversion of an unsigned value to `uint16_t` (reduction modulo `2^16`). -/
def toU16 (n : Nat) : Fin 65536 := ⟨n % 65536, Nat.mod_lt _ (by decide)⟩

/-! ## `printf` -/

/-- Text produced by the conversion `%d` for an `int`. -/
def fmtD (i : Int) : String :=
  if i < 0 then "-" ++ Nat.repr i.natAbs else Nat.repr i.natAbs

/-- Expansion of a format: `%d` consumes the next argument, every other
character is copied. -/
def formatC : List Char → List Int → List Char
  | '%' :: 'd' :: cs, a :: as => (fmtD a).data ++ formatC cs as
  | c :: cs, as => c :: formatC cs as
  | [], _ => []

/-- Text written to the console by `printf fmt args`. -/
def render (fmt : String) (args : List Int) : String :=
  String.mk (formatC fmt.data args)

/-- Format string of the result line printed by the polling loop. -/
def RESULT_FMT : String := "ADC conversion complete, result: %d\r\n"

/-- Integer promotion of a `uint16_t` argument of a variadic call: `int` is
32 bits wide on the target, so the value is kept. -/
def promoteU16 (v : Fin 65536) : Int := Int.ofNat v.val

/-- Call of `printf` with a format string and integer arguments. -/
def World.printf (w : World) (fmt : String) (args : List Int) : World :=
  w.emit (.printf fmt args)

/-- Everything written to the console so far. -/
def consoleOf : List Op → String
  | [] => ""
  | .printf fmt args :: t => render fmt args ++ consoleOf t
  | _ :: t => consoleOf t

/-! ## The interrupt handlers -/

/-- Function `void evtgen_isr (void)`.  `pending` is the value returned by
`Cy_EvtGen_GetStructInterrupt`. -/
def evtgen_isr (cfg : Pdl) (pending : Bool) (w : World) : World :=
  let w := w.call (.Cy_EvtGen_GetStructInterrupt (EVTGEN_COMP_STRUCT_NUM cfg))
  if pending then
    let w := w.call (.Cy_EvtGen_ClearStructInterrupt (EVTGEN_COMP_STRUCT_NUM cfg))
    w.call (.Cy_EvtGen_UpdateActiveCompValue (EVTGEN_COMP_STRUCT_NUM cfg)
      (EVTGEN_COMP_CONFIG_valueActiveComparator cfg))
  else w

/-- Function `void adc_int_handler (void)`.  `intr` is the value returned by
`Cy_SAR2_Channel_GetInterruptStatusMasked`; `r` and `status` are the value
returned by `Cy_SAR2_Channel_GetResult` and the status it stores through its
pointer argument into the local `adc_status` (initialised to 0 and not read
before that call).  The assignment to the `uint16_t` variable `adc_result`
reduces the returned value modulo `2^16`. -/
def adc_int_handler (cfg : Pdl) (intr r status : Nat) (w : World) : World :=
  let w := w.call (.Cy_SAR2_Channel_GetInterruptStatusMasked ADC_LOGICAL_CHANNEL)
  let intrSource := intr
  if cfg.CY_SAR2_INT_GRP_DONE = intrSource &&& cfg.CY_SAR2_INT_GRP_DONE then
    let w := w.call (.Cy_SAR2_Channel_GetResult ADC_LOGICAL_CHANNEL)
    let adc_status := status
    let w := w.set_adc_result (toU16 r)
    let w :=
      if cfg.CY_SAR2_STATUS_VALID = adc_status &&& cfg.CY_SAR2_STATUS_VALID then
        w.set_adc_done_flag 1
      else w
    w.call (.Cy_SAR2_Channel_ClearInterrupt ADC_LOGICAL_CHANNEL cfg.CY_SAR2_INT_GRP_DONE)
  else w

/-! ## `main` -/

/-- One iteration of the `for (;;)` loop of `main`. -/
def main_loop_iteration (w : World) : World :=
  let (flag, w) := w.get_adc_done_flag
  if flag ≠ 0 then
    let w := w.set_adc_done_flag 0
    let (res, w) := w.get_adc_result
    w.printf RESULT_FMT [promoteU16 res]
  else w

/-- Values returned by the start-up calls of `main`. -/
structure Startup where
  /-- Result of `cybsp_init()`. -/
  cybsp_init : Nat
  /-- Result of `cy_retarget_io_init(...)`. -/
  cy_retarget_io_init : Nat
  /-- Result of `Cy_EvtGen_GetRatioStatus(EVTGEN_HW)`. -/
  ratioStatus : Bool
  /-- Result of `Cy_EvtGen_GetCounterStatus(EVTGEN_HW)`. -/
  counterStatus : Nat
  deriving DecidableEq

/-- How the start-up part of `main` ends. -/
inductive Outcome where
  /-- Execution stopped in `CY_ASSERT(0)`. -/
  | halted (w : World)
  /-- Execution arrived at the `for (;;)` loop. -/
  | polling (w : World)
  deriving DecidableEq

/-- Statement `CY_ASSERT(0)`: execution stops. -/
def CY_ASSERT_0 (w : World) : Outcome := .halted (w.call (.CY_ASSERT 0))

/-- The body of `main` up to the `for (;;)` loop.  The operator `&&` of the
ratio check does not evaluate its right operand when the left one is false, so
`Cy_EvtGen_GetRatioStatus` is called only under hardware ratio control. -/
def main_startup (cfg : Pdl) (env : Startup) (w : World) : Outcome :=
  let w := w.call .cybsp_init
  let result := env.cybsp_init
  if result ≠ cfg.CY_RSLT_SUCCESS then CY_ASSERT_0 w else
  let w := w.call .enable_irq
  let w := w.call .cy_retarget_io_init
  let result := env.cy_retarget_io_init
  if result ≠ cfg.CY_RSLT_SUCCESS then CY_ASSERT_0 w else
  let w := w.printf "\x1b[2J\x1b[;H" []
  let w := w.printf
    "********************************************************************************\r\n" []
  let w := w.printf "Event generator trigger ADC conversion\r\n" []
  let w := w.printf
    "********************************************************************************\r\n" []
  let w := w.call .Cy_SAR2_Init
  let w := w.call (.Cy_SAR2_Channel_SetInterruptMask ADC_LOGICAL_CHANNEL cfg.CY_SAR2_INT_GRP_DONE)
  let w := w.call (.Cy_SysInt_Init .ADC_IRQ_NUM ADC_INTR_PRIORITY .adc_int_handler)
  let w := w.call (.NVIC_ClearPendingIRQ .ADC_IRQ_NUM)
  let w := w.call (.NVIC_EnableIRQ .ADC_IRQ_NUM)
  let w := w.call (.Cy_SysInt_Init .EVTGEN_IRQ_NUM EVTGEN_INTR_PRIORITY .evtgen_isr)
  let w := w.call (.Cy_EvtGen_ClearInterrupt 0xFF)
  let w := w.call (.NVIC_ClearPendingIRQ .EVTGEN_IRQ_NUM)
  let w := w.call (.NVIC_EnableIRQ .EVTGEN_IRQ_NUM)
  let w := w.call .Cy_EvtGen_Init
  let w := w.call .Cy_EvtGen_Enable
  let w := w.call (.Cy_SysLib_DelayUs 625)
  let (ratioInvalid, w) :=
    if cfg.CY_EVTGEN_RATIO_CONTROL_HW = cfg.ratioControlMode then
      (!env.ratioStatus, w.call .Cy_EvtGen_GetRatioStatus)
    else (false, w)
  if ratioInvalid then CY_ASSERT_0 w else
  let w := w.call .Cy_EvtGen_GetCounterStatus
  if cfg.CY_EVTGEN_COUNTER_STATUS_VALID ≠ env.counterStatus then CY_ASSERT_0 w else
  .polling (w.call (.Cy_EvtGen_InitStruct (EVTGEN_COMP_STRUCT_NUM cfg)))

/-! ## Interleavings of whole handler runs and whole loop iterations -/

/-- One atomic step of the running system. -/
inductive Event where
  /-- A whole run of `adc_int_handler`, with the values the driver returns. -/
  | adc (intr r status : Nat)
  /-- A whole run of `evtgen_isr`, with the value the driver returns. -/
  | evtgen (pending : Bool)
  /-- A whole iteration of the polling loop of `main`. -/
  | loop
  deriving DecidableEq

/-- Effect of one step. -/
def step (cfg : Pdl) (w : World) : Event → World
  | .adc intr r status => adc_int_handler cfg intr r status w
  | .evtgen pending => evtgen_isr cfg pending w
  | .loop => main_loop_iteration w

/-- Effect of a sequence of steps, oldest first. -/
def runFrom (cfg : Pdl) (w : World) : List Event → World
  | [] => w
  | e :: t => runFrom cfg (step cfg w e) t

/-- Effect of a sequence of steps on the initial state. -/
def run (cfg : Pdl) (t : List Event) : World := runFrom cfg World.initial t

/-- Actions that a state transformer adds to the trace of `w`. -/
def emitted (f : World → World) (w : World) : List Op :=
  (f w).trace.drop w.trace.length

/-! ## Quantities the properties speak about -/

/-- Whether an action prints a result line. -/
def isResultLine : Op → Bool
  | .printf fmt _ => fmt == RESULT_FMT
  | _ => false

/-- Number of result lines printed in a trace. -/
def resultLines (tr : List Op) : Nat := tr.countP isResultLine

/-- A handler run that completed a conversion: the group-done interrupt is
pending and the status of the result is valid. -/
def Event.completes (cfg : Pdl) : Event → Bool
  | .adc intr _ status => intr.testBit cfg.grpDoneBit && status.testBit cfg.statusValidBit
  | _ => false

/-- Number of handler runs that completed a conversion. -/
def completions (cfg : Pdl) (t : List Event) : Nat := t.countP (Event.completes cfg)

/-- Number of handler runs that completed a conversion and found
`adc_done_flag` equal to 0, in a sequence of steps that starts in `w`. -/
def freshCompletionsFrom (cfg : Pdl) (w : World) : List Event → Nat
  | [] => 0
  | e :: t =>
    (if Event.completes cfg e && decide (w.adc_done_flag = 0) then 1 else 0)
      + freshCompletionsFrom cfg (step cfg w e) t

/-- Number of handler runs, from the initial state, that completed a
conversion and found `adc_done_flag` equal to 0. -/
def freshCompletions (cfg : Pdl) (t : List Event) : Nat :=
  freshCompletionsFrom cfg World.initial t

/-- Result and status of the most recent conversion that the handler read
(group-done interrupt pending), `o` being the one before the steps. -/
def lastConversionFrom (cfg : Pdl) (o : Option (Nat × Nat)) : List Event → Option (Nat × Nat)
  | [] => o
  | .adc intr r status :: t =>
    lastConversionFrom cfg (if intr.testBit cfg.grpDoneBit then some (r, status) else o) t
  | _ :: t => lastConversionFrom cfg o t

/-- Result and status of the most recent conversion that the handler read. -/
def lastConversion (cfg : Pdl) (t : List Event) : Option (Nat × Nat) :=
  lastConversionFrom cfg none t

/-- Whether start-up arrived at the polling loop. -/
def Outcome.reachedLoop : Outcome → Bool
  | .polling _ => true
  | .halted _ => false

/-- The state in which start-up ended. -/
def Outcome.world : Outcome → World
  | .polling w => w
  | .halted w => w

/-- The actions of `main` between the successful return of
`cy_retarget_io_init` and the ratio check: banner, ADC set-up, registration of
the two handlers, start of the event generator and the delay. -/
def setupOps (cfg : Pdl) : List Op :=
  [ Op.printf "\x1b[2J\x1b[;H" [],
    Op.printf
      "********************************************************************************\r\n" [],
    Op.printf "Event generator trigger ADC conversion\r\n" [],
    Op.printf
      "********************************************************************************\r\n" [],
    Op.call .Cy_SAR2_Init,
    Op.call (.Cy_SAR2_Channel_SetInterruptMask ADC_LOGICAL_CHANNEL cfg.CY_SAR2_INT_GRP_DONE),
    Op.call (.Cy_SysInt_Init .ADC_IRQ_NUM ADC_INTR_PRIORITY .adc_int_handler),
    Op.call (.NVIC_ClearPendingIRQ .ADC_IRQ_NUM),
    Op.call (.NVIC_EnableIRQ .ADC_IRQ_NUM),
    Op.call (.Cy_SysInt_Init .EVTGEN_IRQ_NUM EVTGEN_INTR_PRIORITY .evtgen_isr),
    Op.call (.Cy_EvtGen_ClearInterrupt 0xFF),
    Op.call (.NVIC_ClearPendingIRQ .EVTGEN_IRQ_NUM),
    Op.call (.NVIC_EnableIRQ .EVTGEN_IRQ_NUM),
    Op.call .Cy_EvtGen_Init,
    Op.call .Cy_EvtGen_Enable,
    Op.call (.Cy_SysLib_DelayUs 625) ]

/-! ## Sample configurations -/

/-- A configuration with hardware ratio control: success code 0, group-done
mask bit 0, valid-status mask bit 31. -/
def sampleHwCfg : Pdl :=
  { CY_RSLT_SUCCESS := 0
    grpDoneBit := 0
    statusValidBit := 31
    CY_EVTGEN_RATIO_CONTROL_HW := 1
    CY_EVTGEN_COUNTER_STATUS_VALID := 1
    CY_IP_M7CPUSS := false
    ratioControlMode := 1
    comp0_valueActiveComparator := 1000000
    comp12_valueActiveComparator := 1000000 }

/-- The same configuration with software ratio control. -/
def sampleSwCfg : Pdl := { sampleHwCfg with ratioControlMode := 0 }

/-- A status word with the valid bit (bit 31) set. -/
def statusValid : Nat := 0x80000000

/-- A status word with the valid bit (bit 31) clear. -/
def statusInvalid : Nat := 0

/-! ## Basic facts about the embedded functions -/

/-- Recording a call extends the trace by that call. -/
theorem World.trace_call (w : World) (c : DriverCall) :
    (w.call c).trace = w.trace ++ [Op.call c] := rfl

/-- Calling `printf` extends the trace by that call. -/
theorem World.trace_printf (w : World) (fmt : String) (args : List Int) :
    (w.printf fmt args).trace = w.trace ++ [Op.printf fmt args] := rfl

/-- The C test `MASK == (x & MASK)` for a single-bit mask is a test of that
bit. -/
theorem mask_test_iff (x k : Nat) : (2 ^ k = x &&& 2 ^ k) ↔ x.testBit k = true := by
  rw [Nat.and_two_pow]
  cases h : x.testBit k <;> simp

/-- The handler in closed form. -/
theorem adc_int_handler_eq (cfg : Pdl) (intr r status : Nat) (w : World) :
    adc_int_handler cfg intr r status w =
      if intr.testBit cfg.grpDoneBit = true then
        { adc_done_flag := if status.testBit cfg.statusValidBit = true then 1 else w.adc_done_flag
          adc_result := toU16 r
          trace := w.trace ++
            [ Op.call (.Cy_SAR2_Channel_GetInterruptStatusMasked ADC_LOGICAL_CHANNEL),
              Op.call (.Cy_SAR2_Channel_GetResult ADC_LOGICAL_CHANNEL),
              Op.write_adc_result (toU16 r) ] ++
            (if status.testBit cfg.statusValidBit = true then [Op.write_adc_done_flag 1] else []) ++
            [ Op.call (.Cy_SAR2_Channel_ClearInterrupt ADC_LOGICAL_CHANNEL
                cfg.CY_SAR2_INT_GRP_DONE) ] }
      else
        { w with trace := w.trace ++
            [ Op.call (.Cy_SAR2_Channel_GetInterruptStatusMasked ADC_LOGICAL_CHANNEL) ] } := by
  unfold adc_int_handler
  simp only [Pdl.CY_SAR2_INT_GRP_DONE, Pdl.CY_SAR2_STATUS_VALID, mask_test_iff]
  by_cases hd : intr.testBit cfg.grpDoneBit = true
  · by_cases hv : status.testBit cfg.statusValidBit = true
    · simp [hd, hv, World.call, World.emit, World.set_adc_result, World.set_adc_done_flag]
    · simp [hd, hv, World.call, World.emit, World.set_adc_result, World.set_adc_done_flag]
  · simp [hd, World.call, World.emit]

/-- The loop iteration in closed form. -/
theorem main_loop_iteration_eq (w : World) :
    main_loop_iteration w =
      if w.adc_done_flag ≠ 0 then
        { adc_done_flag := 0
          adc_result := w.adc_result
          trace := w.trace ++
            [ Op.read_adc_done_flag, Op.write_adc_done_flag 0, Op.read_adc_result,
              Op.printf RESULT_FMT [promoteU16 w.adc_result] ] }
      else { w with trace := w.trace ++ [Op.read_adc_done_flag] } := by
  unfold main_loop_iteration
  by_cases h : w.adc_done_flag = 0
  · simp [h, World.get_adc_done_flag, World.emit]
  · simp [h, World.get_adc_done_flag, World.emit, World.set_adc_done_flag,
      World.get_adc_result, World.printf]

/-- The event-generator handler in closed form. -/
theorem evtgen_isr_eq (cfg : Pdl) (pending : Bool) (w : World) :
    evtgen_isr cfg pending w =
      { w with trace := w.trace ++
          (Op.call (.Cy_EvtGen_GetStructInterrupt (EVTGEN_COMP_STRUCT_NUM cfg)) ::
            if pending = true then
              [ Op.call (.Cy_EvtGen_ClearStructInterrupt (EVTGEN_COMP_STRUCT_NUM cfg)),
                Op.call (.Cy_EvtGen_UpdateActiveCompValue (EVTGEN_COMP_STRUCT_NUM cfg)
                  (EVTGEN_COMP_CONFIG_valueActiveComparator cfg)) ]
            else []) } := by
  cases pending <;> simp [evtgen_isr, World.call, World.emit]

/-- The console text of a concatenated trace. -/
theorem consoleOf_append (a b : List Op) : consoleOf (a ++ b) = consoleOf a ++ consoleOf b := by
  induction a with
  | nil => simp [consoleOf]
  | cons o t ih =>
    cases o <;> simp [consoleOf, ih, String.append_assoc]

/-- Expansion of the format of the result line. -/
theorem formatC_RESULT_FMT (n : Int) :
    formatC RESULT_FMT.data [n] =
      "ADC conversion complete, result: ".data ++ (fmtD n).data ++ "\r\n".data := by
  simp [RESULT_FMT, formatC]

/-- Text of the result line. -/
theorem render_RESULT_FMT (n : Int) :
    render RESULT_FMT [n] = "ADC conversion complete, result: " ++ fmtD n ++ "\r\n" := by
  apply String.ext
  simp [render, formatC_RESULT_FMT]

/-- The conversion `%d` of a promoted `uint16_t` is the decimal numeral of its
value, without sign. -/
theorem fmtD_promoteU16 (v : Fin 65536) : fmtD (promoteU16 v) = Nat.repr v.val := by
  simp [fmtD, promoteU16]

/-! ## Single runs of the handlers and of the loop body -/

/-- C3: in a run of `adc_int_handler` that writes `adc_done_flag`, the writes
to the two shared variables are exactly the write of `adc_result` followed by
the write of `adc_done_flag`, so the result is written first and the flag
last; after the run `adc_result` holds the value read from the driver and
`adc_done_flag` is 1. -/
theorem adc_int_handler_flag_written_last (cfg : Pdl) (intr r status : Nat) (w : World)
    (hset : ∃ v, Op.write_adc_done_flag v ∈ emitted (adc_int_handler cfg intr r status) w) :
    (emitted (adc_int_handler cfg intr r status) w).filter Op.isSharedWrite =
      [Op.write_adc_result (toU16 r), Op.write_adc_done_flag 1] ∧
    (adc_int_handler cfg intr r status w).adc_result = toU16 r ∧
    (adc_int_handler cfg intr r status w).adc_done_flag = 1 := by
  obtain ⟨v, hv⟩ := hset
  unfold emitted at hv ⊢
  rw [adc_int_handler_eq] at hv ⊢
  by_cases hd : intr.testBit cfg.grpDoneBit = true
  · by_cases hs : status.testBit cfg.statusValidBit = true
    · simp [hd, hs, List.append_assoc, Op.isSharedWrite]
    · simp [hd, hs, List.append_assoc] at hv
  · simp [hd] at hv

/-- Witness of C3 for a run with the interrupt pending and a valid status. -/
theorem adc_int_handler_flag_written_last_witness :
    (emitted (adc_int_handler sampleHwCfg 1 1234 statusValid) World.initial).filter
        Op.isSharedWrite =
      [Op.write_adc_result (toU16 1234), Op.write_adc_done_flag 1] ∧
    (adc_int_handler sampleHwCfg 1 1234 statusValid World.initial).adc_result = toU16 1234 ∧
    (adc_int_handler sampleHwCfg 1 1234 statusValid World.initial).adc_done_flag = 1 :=
  adc_int_handler_flag_written_last sampleHwCfg 1 1234 statusValid World.initial
    ⟨1, by decide⟩

/-- C4: an iteration of the polling loop that finds `adc_done_flag` nonzero
clears it, keeps `adc_result` and appends to the console exactly
"ADC conversion complete, result: N\r\n" with N the unsigned decimal numeral
of `adc_result`, a value of at most 65535; an iteration that finds the flag 0
only reads the flag: no read of the result, no output, no change of the two
variables. -/
theorem main_loop_iteration_spec (w : World) :
    (w.adc_done_flag ≠ 0 →
      (main_loop_iteration w).adc_done_flag = 0 ∧
      (main_loop_iteration w).adc_result = w.adc_result ∧
      consoleOf (main_loop_iteration w).trace =
        consoleOf w.trace ++
          ("ADC conversion complete, result: " ++ Nat.repr w.adc_result.val ++ "\r\n") ∧
      w.adc_result.val ≤ 65535 ∧
      0 ≤ promoteU16 w.adc_result ∧
      emitted main_loop_iteration w =
        [ Op.read_adc_done_flag, Op.write_adc_done_flag 0, Op.read_adc_result,
          Op.printf RESULT_FMT [promoteU16 w.adc_result] ]) ∧
    (w.adc_done_flag = 0 →
      (main_loop_iteration w).adc_done_flag = w.adc_done_flag ∧
      (main_loop_iteration w).adc_result = w.adc_result ∧
      consoleOf (main_loop_iteration w).trace = consoleOf w.trace ∧
      emitted main_loop_iteration w = [Op.read_adc_done_flag]) := by
  constructor
  · intro h
    have hlt : w.adc_result.val ≤ 65535 := by have := w.adc_result.isLt; omega
    have hnn : 0 ≤ promoteU16 w.adc_result := by simp [promoteU16]
    unfold emitted
    rw [main_loop_iteration_eq]
    simp [h, consoleOf_append, consoleOf, render_RESULT_FMT, fmtD_promoteU16, hlt, hnn]
  · intro h
    unfold emitted
    rw [main_loop_iteration_eq]
    simp [h, consoleOf_append, consoleOf]

/-- C6: `adc_result` is written only by `adc_int_handler` (a loop iteration
and a run of `evtgen_isr` keep its value and emit no write of it);
`adc_done_flag` is made nonzero only by `adc_int_handler` and cleared only by
the loop (the handler keeps a nonzero flag nonzero and writes no 0, the loop
leaves the flag 0 and writes nothing but 0); `evtgen_isr` keeps both variables
and writes neither, whatever the hardware reports. -/
theorem single_producer_single_consumer (cfg : Pdl) (w : World) :
    ((main_loop_iteration w).adc_result = w.adc_result ∧
      ∀ v, Op.write_adc_result v ∉ emitted main_loop_iteration w) ∧
    (∀ pending,
      (evtgen_isr cfg pending w).adc_result = w.adc_result ∧
      (evtgen_isr cfg pending w).adc_done_flag = w.adc_done_flag ∧
      ∀ o ∈ emitted (evtgen_isr cfg pending) w, Op.isSharedWrite o = false) ∧
    (∀ intr r status,
      (w.adc_done_flag ≠ 0 → (adc_int_handler cfg intr r status w).adc_done_flag ≠ 0) ∧
      ∀ v, Op.write_adc_done_flag v ∈ emitted (adc_int_handler cfg intr r status) w → v = 1) ∧
    ((main_loop_iteration w).adc_done_flag = 0 ∧
      ∀ v, Op.write_adc_done_flag v ∈ emitted main_loop_iteration w → v = 0) := by
  refine ⟨⟨?_, ?_⟩, ?_, ?_, ⟨?_, ?_⟩⟩
  · rw [main_loop_iteration_eq]; split <;> rfl
  · intro v
    unfold emitted
    rw [main_loop_iteration_eq]
    split <;> simp
  · intro pending
    unfold emitted
    rw [evtgen_isr_eq]
    cases pending <;> simp [Op.isSharedWrite]
  · intro intr r status
    unfold emitted
    rw [adc_int_handler_eq]
    by_cases hd : intr.testBit cfg.grpDoneBit = true
    · by_cases hs : status.testBit cfg.statusValidBit = true
      · simp [hd, hs, List.append_assoc]
      · simp [hd, hs, List.append_assoc]
    · simp [hd]
  · rw [main_loop_iteration_eq]
    by_cases h : w.adc_done_flag = 0 <;> simp [h]
  · intro v
    unfold emitted
    rw [main_loop_iteration_eq]
    by_cases h : w.adc_done_flag = 0 <;> simp [h]

/-- C7: with the group-done bit set in the masked interrupt status,
`adc_int_handler` reads the result, stores it in `adc_result`, sets
`adc_done_flag` to 1 exactly when the valid bit of the status is set (else
keeps the flag), and clears the group-done interrupt of logical channel 0 once,
as its last action, whatever the status; with the bit clear it only reads the
interrupt status and keeps both variables. -/
theorem adc_int_handler_spec (cfg : Pdl) (intr r status : Nat) (w : World)
    (hr : r < 65536) :
    (intr.testBit cfg.grpDoneBit = true →
      (adc_int_handler cfg intr r status w).adc_result.val = r ∧
      (adc_int_handler cfg intr r status w).adc_done_flag =
        (if status.testBit cfg.statusValidBit = true then 1 else w.adc_done_flag) ∧
      emitted (adc_int_handler cfg intr r status) w =
        [ Op.call (.Cy_SAR2_Channel_GetInterruptStatusMasked 0),
          Op.call (.Cy_SAR2_Channel_GetResult 0),
          Op.write_adc_result (toU16 r) ] ++
        (if status.testBit cfg.statusValidBit = true then [Op.write_adc_done_flag 1] else []) ++
        [ Op.call (.Cy_SAR2_Channel_ClearInterrupt 0 cfg.CY_SAR2_INT_GRP_DONE) ] ∧
      (emitted (adc_int_handler cfg intr r status) w).count
        (Op.call (.Cy_SAR2_Channel_ClearInterrupt 0 cfg.CY_SAR2_INT_GRP_DONE)) = 1) ∧
    (intr.testBit cfg.grpDoneBit = false →
      (adc_int_handler cfg intr r status w).adc_result = w.adc_result ∧
      (adc_int_handler cfg intr r status w).adc_done_flag = w.adc_done_flag ∧
      emitted (adc_int_handler cfg intr r status) w =
        [ Op.call (.Cy_SAR2_Channel_GetInterruptStatusMasked 0) ]) := by
  have hmod : r % 65536 = r := Nat.mod_eq_of_lt hr
  unfold emitted
  rw [adc_int_handler_eq]
  constructor
  · intro hd
    by_cases hs : status.testBit cfg.statusValidBit = true
    · simp [hd, hs, List.append_assoc, toU16, hmod, ADC_LOGICAL_CHANNEL]
    · simp [hd, hs, List.append_assoc, toU16, hmod, ADC_LOGICAL_CHANNEL]
  · intro hd
    simp [hd, ADC_LOGICAL_CHANNEL]

/-- Witness of C7: a 12-bit result with the interrupt pending and a valid
status, from the initial state. -/
theorem adc_int_handler_spec_witness :
    (adc_int_handler sampleHwCfg 1 4095 statusValid World.initial).adc_result.val = 4095 ∧
    (adc_int_handler sampleHwCfg 1 4095 statusValid World.initial).adc_done_flag = 1 :=
  ⟨((adc_int_handler_spec sampleHwCfg 1 4095 statusValid World.initial (by decide)).1
      (by decide)).1,
   by decide⟩

/-- C9: with the interrupt of comparator structure `EVTGEN_COMP_STRUCT_NUM`
pending, `evtgen_isr` clears that interrupt and then updates the active
comparator value of the same structure with
`EVTGEN_COMP_CONFIG.valueActiveComparator`, each once and in that order; with
the interrupt not pending it does neither. -/
theorem evtgen_isr_spec (cfg : Pdl) (w : World) :
    emitted (evtgen_isr cfg true) w =
      [ Op.call (.Cy_EvtGen_GetStructInterrupt (EVTGEN_COMP_STRUCT_NUM cfg)),
        Op.call (.Cy_EvtGen_ClearStructInterrupt (EVTGEN_COMP_STRUCT_NUM cfg)),
        Op.call (.Cy_EvtGen_UpdateActiveCompValue (EVTGEN_COMP_STRUCT_NUM cfg)
          (EVTGEN_COMP_CONFIG_valueActiveComparator cfg)) ] ∧
    emitted (evtgen_isr cfg false) w =
      [ Op.call (.Cy_EvtGen_GetStructInterrupt (EVTGEN_COMP_STRUCT_NUM cfg)) ] ∧
    (∀ n, Op.call (.Cy_EvtGen_ClearStructInterrupt n) ∉ emitted (evtgen_isr cfg false) w) ∧
    (∀ n v, Op.call (.Cy_EvtGen_UpdateActiveCompValue n v) ∉
      emitted (evtgen_isr cfg false) w) := by
  unfold emitted
  simp [evtgen_isr_eq]

/-! ## Start-up of `main` -/

/-- The start-up sequence in closed form: which check stops it, if any. -/
theorem main_startup_reachedLoop (cfg : Pdl) (env : Startup) (w : World) :
    (main_startup cfg env w).reachedLoop =
      (decide (env.cybsp_init = cfg.CY_RSLT_SUCCESS) &&
       decide (env.cy_retarget_io_init = cfg.CY_RSLT_SUCCESS) &&
       (!decide (cfg.CY_EVTGEN_RATIO_CONTROL_HW = cfg.ratioControlMode) || env.ratioStatus) &&
       decide (cfg.CY_EVTGEN_COUNTER_STATUS_VALID = env.counterStatus)) := by
  unfold main_startup
  by_cases h1 : env.cybsp_init = cfg.CY_RSLT_SUCCESS
  · by_cases h2 : env.cy_retarget_io_init = cfg.CY_RSLT_SUCCESS
    · by_cases h3 : cfg.CY_EVTGEN_RATIO_CONTROL_HW = cfg.ratioControlMode
      · by_cases h4 : cfg.CY_EVTGEN_COUNTER_STATUS_VALID = env.counterStatus
        · cases h5 : env.ratioStatus <;>
            simp [h1, h2, h3, h4, h5, CY_ASSERT_0, Outcome.reachedLoop]
        · cases h5 : env.ratioStatus <;>
            simp [h1, h2, h3, h4, h5, CY_ASSERT_0, Outcome.reachedLoop]
      · by_cases h4 : cfg.CY_EVTGEN_COUNTER_STATUS_VALID = env.counterStatus
        · simp [h1, h2, h3, h4, CY_ASSERT_0, Outcome.reachedLoop]
        · simp [h1, h2, h3, h4, CY_ASSERT_0, Outcome.reachedLoop]
    · simp [h1, h2, CY_ASSERT_0, Outcome.reachedLoop]
  · simp [h1, CY_ASSERT_0, Outcome.reachedLoop]

/-- The trace of the start-up sequence from the initial state. -/
theorem main_startup_trace (cfg : Pdl) (env : Startup) :
    (main_startup cfg env World.initial).world.trace =
      if env.cybsp_init ≠ cfg.CY_RSLT_SUCCESS then
        [Op.call .cybsp_init, Op.call (.CY_ASSERT 0)]
      else if env.cy_retarget_io_init ≠ cfg.CY_RSLT_SUCCESS then
        [Op.call .cybsp_init, Op.call .enable_irq, Op.call .cy_retarget_io_init,
          Op.call (.CY_ASSERT 0)]
      else
        [Op.call .cybsp_init, Op.call .enable_irq, Op.call .cy_retarget_io_init]
          ++ setupOps cfg ++
          if cfg.CY_EVTGEN_RATIO_CONTROL_HW = cfg.ratioControlMode then
            if env.ratioStatus = false then
              [Op.call .Cy_EvtGen_GetRatioStatus, Op.call (.CY_ASSERT 0)]
            else if cfg.CY_EVTGEN_COUNTER_STATUS_VALID ≠ env.counterStatus then
              [Op.call .Cy_EvtGen_GetRatioStatus, Op.call .Cy_EvtGen_GetCounterStatus,
                Op.call (.CY_ASSERT 0)]
            else
              [Op.call .Cy_EvtGen_GetRatioStatus, Op.call .Cy_EvtGen_GetCounterStatus,
                Op.call (.Cy_EvtGen_InitStruct (EVTGEN_COMP_STRUCT_NUM cfg))]
          else if cfg.CY_EVTGEN_COUNTER_STATUS_VALID ≠ env.counterStatus then
            [Op.call .Cy_EvtGen_GetCounterStatus, Op.call (.CY_ASSERT 0)]
          else
            [Op.call .Cy_EvtGen_GetCounterStatus,
              Op.call (.Cy_EvtGen_InitStruct (EVTGEN_COMP_STRUCT_NUM cfg))] := by
  unfold main_startup
  by_cases h1 : env.cybsp_init = cfg.CY_RSLT_SUCCESS
  · by_cases h2 : env.cy_retarget_io_init = cfg.CY_RSLT_SUCCESS
    · by_cases h3 : cfg.CY_EVTGEN_RATIO_CONTROL_HW = cfg.ratioControlMode
      · by_cases h4 : cfg.CY_EVTGEN_COUNTER_STATUS_VALID = env.counterStatus
        · cases h5 : env.ratioStatus <;>
            simp only [h1, h2, h3, h4, h5, CY_ASSERT_0, Outcome.world, ne_eq, not_true_eq_false,
              not_false_eq_true, if_true, if_false, Bool.not_true, Bool.not_false,
              Bool.false_eq_true, reduceCtorEq, World.trace_call, World.trace_printf, World.initial,
              setupOps, List.nil_append, List.cons_append, List.append_assoc]
        · cases h5 : env.ratioStatus <;>
            simp only [h1, h2, h3, h4, h5, CY_ASSERT_0, Outcome.world, ne_eq, not_true_eq_false,
              not_false_eq_true, if_true, if_false, Bool.not_true, Bool.not_false,
              Bool.false_eq_true, reduceCtorEq, World.trace_call, World.trace_printf, World.initial,
              setupOps, List.nil_append, List.cons_append, List.append_assoc]
      · by_cases h4 : cfg.CY_EVTGEN_COUNTER_STATUS_VALID = env.counterStatus
        · simp only [h1, h2, h3, h4, CY_ASSERT_0, Outcome.world, ne_eq, not_true_eq_false,
            not_false_eq_true, if_true, if_false, Bool.false_eq_true, World.trace_call, World.trace_printf,
            World.initial, setupOps, List.nil_append, List.cons_append, List.append_assoc]
        · simp only [h1, h2, h3, h4, CY_ASSERT_0, Outcome.world, ne_eq, not_true_eq_false,
            not_false_eq_true, if_true, if_false, Bool.false_eq_true, World.trace_call, World.trace_printf,
            World.initial, setupOps, List.nil_append, List.cons_append, List.append_assoc]
    · simp only [h1, h2, CY_ASSERT_0, Outcome.world, ne_eq, not_true_eq_false,
        not_false_eq_true, if_true, if_false, World.trace_call, World.trace_printf,
        World.initial, setupOps, List.nil_append, List.cons_append, List.append_assoc]
  · simp only [h1, CY_ASSERT_0, Outcome.world, ne_eq, not_true_eq_false,
        not_false_eq_true, if_true, if_false, World.trace_call, World.trace_printf,
        World.initial, setupOps, List.nil_append, List.cons_append, List.append_assoc]

/-- What the fixed part of the start-up sequence does not contain. -/
theorem setupOps_free (cfg : Pdl) :
    Op.call (.CY_ASSERT 0) ∉ setupOps cfg ∧
    Op.call .cybsp_init ∉ setupOps cfg ∧
    Op.call .cy_retarget_io_init ∉ setupOps cfg ∧
    Op.call .Cy_EvtGen_GetRatioStatus ∉ setupOps cfg ∧
    ∀ n, Op.call (.Cy_EvtGen_InitStruct n) ∉ setupOps cfg := by
  simp [setupOps]

/-- C2 (amended): if `cybsp_init` or `cy_retarget_io_init` does not return
`CY_RSLT_SUCCESS`, or the ratio status is invalid under hardware ratio
control, or the counter status is not `CY_EVTGEN_COUNTER_STATUS_VALID`, then
`main` stops in `CY_ASSERT(0)`: the assertion is its last action and fires
once, the polling loop and the comparator-structure initialisation are never
reached, and no initialisation call is repeated. -/
theorem main_startup_failure_halts (cfg : Pdl) (env : Startup)
    (h : env.cybsp_init ≠ cfg.CY_RSLT_SUCCESS ∨
         env.cy_retarget_io_init ≠ cfg.CY_RSLT_SUCCESS ∨
         (cfg.ratioControlMode = cfg.CY_EVTGEN_RATIO_CONTROL_HW ∧ env.ratioStatus = false) ∨
         env.counterStatus ≠ cfg.CY_EVTGEN_COUNTER_STATUS_VALID) :
    (main_startup cfg env World.initial).reachedLoop = false ∧
    (main_startup cfg env World.initial).world.trace.getLast? =
      some (Op.call (.CY_ASSERT 0)) ∧
    (main_startup cfg env World.initial).world.trace.count (Op.call (.CY_ASSERT 0)) = 1 ∧
    (∀ n, Op.call (.Cy_EvtGen_InitStruct n) ∉
      (main_startup cfg env World.initial).world.trace) ∧
    (main_startup cfg env World.initial).world.trace.count (Op.call .cybsp_init) = 1 ∧
    (main_startup cfg env World.initial).world.trace.count
      (Op.call .cy_retarget_io_init) ≤ 1 := by
  obtain ⟨f1, f2, f3, -, f5⟩ := setupOps_free cfg
  rw [main_startup_reachedLoop, main_startup_trace]
  by_cases h1 : env.cybsp_init = cfg.CY_RSLT_SUCCESS
  · by_cases h2 : env.cy_retarget_io_init = cfg.CY_RSLT_SUCCESS
    · by_cases h3 : cfg.CY_EVTGEN_RATIO_CONTROL_HW = cfg.ratioControlMode
      · cases h5 : env.ratioStatus
        · simp [h1, h2, h3, f1, f2, f3, f5, List.getLast?_append, List.count_eq_zero_of_not_mem]
          simp [setupOps]
        · have h4 : ¬ cfg.CY_EVTGEN_COUNTER_STATUS_VALID = env.counterStatus := by
            rcases h with h | h | h | h
            · exact absurd h1 h
            · exact absurd h2 h
            · rw [h5] at h; exact Bool.noConfusion h.2
            · exact fun e => h e.symm
          simp [h1, h2, h3, h4, f1, f2, f3, f5, List.getLast?_append,
            List.count_eq_zero_of_not_mem]
          simp [setupOps]
      · have h4 : ¬ cfg.CY_EVTGEN_COUNTER_STATUS_VALID = env.counterStatus := by
          rcases h with h | h | h | h
          · exact absurd h1 h
          · exact absurd h2 h
          · exact absurd h.1.symm h3
          · exact fun e => h e.symm
        simp [h1, h2, h3, h4, f1, f2, f3, f5, List.getLast?_append,
          List.count_eq_zero_of_not_mem]
        simp [setupOps]
    · simp [h1, h2]
  · simp [h1]

/-- Witness of C2 (amended): invalid ratio status under hardware ratio
control, everything else succeeding. -/
theorem main_startup_failure_halts_witness :
    (main_startup sampleHwCfg ⟨0, 0, false, 1⟩ World.initial).reachedLoop = false ∧
    (main_startup sampleHwCfg ⟨0, 0, false, 1⟩ World.initial).world.trace.getLast? =
      some (Op.call (.CY_ASSERT 0)) :=
  have h := main_startup_failure_halts sampleHwCfg ⟨0, 0, false, 1⟩
    (Or.inr (Or.inr (Or.inl ⟨by decide, by decide⟩)))
  ⟨h.1, h.2.1⟩

/-- C2 as stated fails: under software ratio control an invalid ratio status,
with every other start-up call succeeding, does not stop `main`; it arrives at
the polling loop without any assertion. -/
theorem main_startup_invalid_ratio_reaches_loop :
    (⟨0, 0, false, 1⟩ : Startup).ratioStatus = false ∧
    (main_startup sampleSwCfg ⟨0, 0, false, 1⟩ World.initial).reachedLoop = true ∧
    Op.call (.CY_ASSERT 0) ∉
      (main_startup sampleSwCfg ⟨0, 0, false, 1⟩ World.initial).world.trace := by
  decide

/-- C8: `main` arrives at the comparator-structure initialisation, and at the
polling loop, exactly when `cybsp_init` and `cy_retarget_io_init` return
`CY_RSLT_SUCCESS`, the counter status is `CY_EVTGEN_COUNTER_STATUS_VALID`, and
either the ratio control mode is not `CY_EVTGEN_RATIO_CONTROL_HW` or the ratio
status is valid; under any other ratio control mode the ratio status is not
even queried. -/
theorem main_startup_reaches_loop_iff (cfg : Pdl) (env : Startup) :
    ((main_startup cfg env World.initial).reachedLoop = true ↔
      (env.cybsp_init = cfg.CY_RSLT_SUCCESS ∧
       env.cy_retarget_io_init = cfg.CY_RSLT_SUCCESS ∧
       env.counterStatus = cfg.CY_EVTGEN_COUNTER_STATUS_VALID ∧
       (cfg.ratioControlMode ≠ cfg.CY_EVTGEN_RATIO_CONTROL_HW ∨ env.ratioStatus = true))) ∧
    (Op.call (.Cy_EvtGen_InitStruct (EVTGEN_COMP_STRUCT_NUM cfg)) ∈
        (main_startup cfg env World.initial).world.trace ↔
      (env.cybsp_init = cfg.CY_RSLT_SUCCESS ∧
       env.cy_retarget_io_init = cfg.CY_RSLT_SUCCESS ∧
       env.counterStatus = cfg.CY_EVTGEN_COUNTER_STATUS_VALID ∧
       (cfg.ratioControlMode ≠ cfg.CY_EVTGEN_RATIO_CONTROL_HW ∨ env.ratioStatus = true))) ∧
    (cfg.ratioControlMode ≠ cfg.CY_EVTGEN_RATIO_CONTROL_HW →
      Op.call .Cy_EvtGen_GetRatioStatus ∉ (main_startup cfg env World.initial).world.trace) := by
  obtain ⟨-, -, -, f4, f5⟩ := setupOps_free cfg
  have hc : (env.counterStatus = cfg.CY_EVTGEN_COUNTER_STATUS_VALID) ↔
      (cfg.CY_EVTGEN_COUNTER_STATUS_VALID = env.counterStatus) := eq_comm
  have hm : (cfg.ratioControlMode = cfg.CY_EVTGEN_RATIO_CONTROL_HW) ↔
      (cfg.CY_EVTGEN_RATIO_CONTROL_HW = cfg.ratioControlMode) := eq_comm
  rw [main_startup_reachedLoop, main_startup_trace, ne_eq, hc, hm]
  by_cases h1 : env.cybsp_init = cfg.CY_RSLT_SUCCESS
  · by_cases h2 : env.cy_retarget_io_init = cfg.CY_RSLT_SUCCESS
    · by_cases h3 : cfg.CY_EVTGEN_RATIO_CONTROL_HW = cfg.ratioControlMode
      · by_cases h4 : cfg.CY_EVTGEN_COUNTER_STATUS_VALID = env.counterStatus
        · cases h5 : env.ratioStatus <;> simp [h1, h2, h3, h4, f4, f5]
        · cases h5 : env.ratioStatus <;> simp [h1, h2, h3, h4, f4, f5]
      · by_cases h4 : cfg.CY_EVTGEN_COUNTER_STATUS_VALID = env.counterStatus
        · simp [h1, h2, h3, h4, f4, f5]
        · simp [h1, h2, h3, h4, f4, f5]
    · simp [h1, h2]
  · simp [h1]

/-! ## Interleavings -/

/-- The flag after one step. -/
theorem step_adc_done_flag (cfg : Pdl) (w : World) (e : Event) :
    (step cfg w e).adc_done_flag =
      match e with
      | .adc _ _ _ => if Event.completes cfg e = true then 1 else w.adc_done_flag
      | .evtgen _ => w.adc_done_flag
      | .loop => 0 := by
  cases e with
  | adc intr r status =>
    simp only [step, adc_int_handler_eq, Event.completes]
    by_cases hd : intr.testBit cfg.grpDoneBit = true
    · by_cases hs : status.testBit cfg.statusValidBit = true <;> simp [hd, hs]
    · simp [hd]
  | evtgen pending => simp [step, evtgen_isr_eq]
  | loop =>
    simp only [step, main_loop_iteration_eq]
    by_cases h : w.adc_done_flag = 0 <;> simp [h]

/-- The number of result lines after one step: only a loop iteration that
finds the flag set prints one. -/
theorem step_resultLines (cfg : Pdl) (w : World) (e : Event) :
    resultLines (step cfg w e).trace =
      resultLines w.trace +
        (if e = Event.loop ∧ w.adc_done_flag ≠ 0 then 1 else 0) := by
  cases e with
  | adc intr r status =>
    simp only [step, adc_int_handler_eq, resultLines]
    by_cases hd : intr.testBit cfg.grpDoneBit = true
    · by_cases hs : status.testBit cfg.statusValidBit = true <;>
        simp [hd, hs, List.countP_append, List.countP_cons, isResultLine]
    · simp [hd, List.countP_append, List.countP_cons, isResultLine]
  | evtgen pending =>
    cases pending <;>
      simp [step, evtgen_isr_eq, resultLines, List.countP_append, List.countP_cons, isResultLine]
  | loop =>
    simp only [step, main_loop_iteration_eq, resultLines]
    by_cases h : w.adc_done_flag = 0 <;>
      simp [h, List.countP_append, List.countP_cons, isResultLine]

/-- A flag that is 0 or 1 stays 0 or 1. -/
theorem step_flag_01 (cfg : Pdl) (w : World) (e : Event)
    (h : w.adc_done_flag = 0 ∨ w.adc_done_flag = 1) :
    (step cfg w e).adc_done_flag = 0 ∨ (step cfg w e).adc_done_flag = 1 := by
  rw [step_adc_done_flag]
  cases e with
  | adc intr r status => dsimp only; split <;> simp [h]
  | evtgen pending => exact h
  | loop => exact Or.inl rfl

/-- Lines printed plus pending flag never exceed the earlier total plus the
completed conversions of the steps taken. -/
theorem runFrom_lines_le (cfg : Pdl) (t : List Event) :
    ∀ w : World, (w.adc_done_flag = 0 ∨ w.adc_done_flag = 1) →
      ((runFrom cfg w t).adc_done_flag = 0 ∨ (runFrom cfg w t).adc_done_flag = 1) ∧
      resultLines (runFrom cfg w t).trace + (runFrom cfg w t).adc_done_flag.val ≤
        resultLines w.trace + w.adc_done_flag.val + completions cfg t := by
  induction t with
  | nil => intro w h; exact ⟨h, by simp [runFrom, completions]⟩
  | cons e t ih =>
    intro w h
    have h01 := step_flag_01 cfg w e h
    obtain ⟨ih1, ih2⟩ := ih (step cfg w e) h01
    refine ⟨ih1, ?_⟩
    have hl := step_resultLines cfg w e
    have hf := step_adc_done_flag cfg w e
    have hstep : resultLines (step cfg w e).trace + (step cfg w e).adc_done_flag.val ≤
        resultLines w.trace + w.adc_done_flag.val +
          (if Event.completes cfg e = true then 1 else 0) := by
      rw [hl, hf]
      cases e with
      | adc intr r status =>
        by_cases hc : Event.completes cfg (Event.adc intr r status) = true
        · rcases h with h | h <;> simp [hc, h]
        · simp [hc]
      | evtgen pending => simp [Event.completes]
      | loop => rcases h with h | h <;> simp [h, Event.completes]
    have hcount : completions cfg (e :: t) =
        (if Event.completes cfg e = true then 1 else 0) + completions cfg t := by
      simp only [completions, List.countP_cons]
      omega
    simp only [runFrom]
    omega

/-- Lines printed plus pending flag equal the earlier total plus the completed
conversions that found the flag clear. -/
theorem runFrom_lines_eq (cfg : Pdl) (t : List Event) :
    ∀ w : World, (w.adc_done_flag = 0 ∨ w.adc_done_flag = 1) →
      resultLines (runFrom cfg w t).trace + (runFrom cfg w t).adc_done_flag.val =
        resultLines w.trace + w.adc_done_flag.val + freshCompletionsFrom cfg w t := by
  induction t with
  | nil => intro w _; simp [runFrom, freshCompletionsFrom]
  | cons e t ih =>
    intro w h
    have h01 := step_flag_01 cfg w e h
    have ih1 := ih (step cfg w e) h01
    have hl := step_resultLines cfg w e
    have hf := step_adc_done_flag cfg w e
    have hstep : resultLines (step cfg w e).trace + (step cfg w e).adc_done_flag.val =
        resultLines w.trace + w.adc_done_flag.val +
          (if (Event.completes cfg e && decide (w.adc_done_flag = 0)) = true then 1 else 0) := by
      rw [hl, hf]
      cases e with
      | adc intr r status =>
        by_cases hc : Event.completes cfg (Event.adc intr r status) = true
        · rcases h with h | h <;> simp [hc, h]
        · simp [hc]
      | evtgen pending => simp [Event.completes]
      | loop => rcases h with h | h <;> simp [h, Event.completes]
    simp only [runFrom, freshCompletionsFrom]
    omega

/-- C1 is violated by the code: `adc_int_handler` stores the result in
`adc_result` before it tests the valid bit of the status.  After a handler run
that completes a valid conversion (result 5) and a second run, before any loop
iteration, that reads a conversion with invalid status (result 9),
`adc_done_flag` is nonzero while `adc_result` is 9, the result of the invalid
conversion; no conversion with valid status ever had that result, and the next
loop iteration prints it. -/
theorem stale_flag_exposes_invalid_result :
    (run sampleHwCfg [.adc 1 5 statusValid, .adc 1 9 statusInvalid]).adc_done_flag ≠ 0 ∧
    lastConversion sampleHwCfg [.adc 1 5 statusValid, .adc 1 9 statusInvalid] =
      some (9, statusInvalid) ∧
    statusInvalid.testBit sampleHwCfg.statusValidBit = false ∧
    (∀ intr r status,
      Event.adc intr r status ∈ [Event.adc 1 5 statusValid, Event.adc 1 9 statusInvalid] →
      status.testBit sampleHwCfg.statusValidBit = true →
      (run sampleHwCfg [.adc 1 5 statusValid, .adc 1 9 statusInvalid]).adc_result ≠ toU16 r) ∧
    consoleOf (run sampleHwCfg [.adc 1 5 statusValid, .adc 1 9 statusInvalid, .loop]).trace =
      "ADC conversion complete, result: 9\r\n" := by
  refine ⟨by decide, by decide, by decide, ?_, by decide⟩
  intro intr r status hmem hvalid
  simp only [List.mem_cons, Event.adc.injEq, List.mem_singleton, List.mem_nil_iff,
    or_false] at hmem
  rcases hmem with ⟨-, hr, -⟩ | ⟨-, -, hs⟩
  · subst hr; decide
  · subst hs; exact absurd hvalid (by decide)

/-- C5 as stated fails: two handler runs that each complete a valid
conversion, followed by one loop iteration, end with `adc_done_flag = 0`, two
completed conversions and a single result line. -/
theorem two_conversions_one_line :
    (run sampleHwCfg [.adc 1 5 statusValid, .adc 1 6 statusValid, .loop]).adc_done_flag = 0 ∧
    completions sampleHwCfg [.adc 1 5 statusValid, .adc 1 6 statusValid, .loop] = 2 ∧
    resultLines
      (run sampleHwCfg [.adc 1 5 statusValid, .adc 1 6 statusValid, .loop]).trace = 1 := by
  decide

/-- C5 (amended): for every finite interleaving of whole handler runs and
whole loop iterations that starts in the initial state and ends with
`adc_done_flag = 0`, the number of result lines printed equals the number of
handler runs that completed a conversion and found `adc_done_flag` equal to
0. -/
theorem lines_eq_fresh_completions (cfg : Pdl) (t : List Event)
    (hend : (run cfg t).adc_done_flag = 0) :
    resultLines (run cfg t).trace = freshCompletions cfg t := by
  have h := runFrom_lines_eq cfg t World.initial (Or.inl rfl)
  have h0 : World.initial.adc_done_flag.val = 0 := rfl
  have h1 : resultLines World.initial.trace = 0 := rfl
  have h2 : (runFrom cfg World.initial t).adc_done_flag.val = 0 := by
    have : (runFrom cfg World.initial t).adc_done_flag = 0 := hend
    rw [this]; rfl
  unfold run freshCompletions
  omega

/-- Witness of C5 (amended): three completed conversions, the second of which
finds the flag still set, and two loop iterations that print. -/
theorem lines_eq_fresh_completions_witness :
    resultLines
      (run sampleHwCfg
        [.adc 1 5 statusValid, .adc 1 6 statusValid, .loop, .loop, .adc 1 7 statusValid,
          .evtgen true, .loop]).trace = 2 ∧
    freshCompletions sampleHwCfg
        [.adc 1 5 statusValid, .adc 1 6 statusValid, .loop, .loop, .adc 1 7 statusValid,
          .evtgen true, .loop] = 2 :=
  ⟨(lines_eq_fresh_completions sampleHwCfg
      [.adc 1 5 statusValid, .adc 1 6 statusValid, .loop, .loop, .adc 1 7 statusValid,
        .evtgen true, .loop] (by decide)).trans (by decide),
   by decide⟩

/-- C10: in every state reached from the initial state by whole runs of the
handlers and whole loop iterations, `adc_done_flag` is 0 or 1, and the number
of result lines printed plus the value of `adc_done_flag` is at most the
number of handler runs that completed a valid conversion. -/
theorem lines_plus_flag_le_completions (cfg : Pdl) (t : List Event) :
    ((run cfg t).adc_done_flag = 0 ∨ (run cfg t).adc_done_flag = 1) ∧
    resultLines (run cfg t).trace + (run cfg t).adc_done_flag.val ≤ completions cfg t := by
  have h := runFrom_lines_le cfg t World.initial (Or.inl rfl)
  have h0 : World.initial.adc_done_flag.val = 0 := rfl
  have h1 : resultLines World.initial.trace = 0 := rfl
  refine ⟨h.1, ?_⟩
  have h2 := h.2
  unfold run
  omega

end EvtgenAdc
